import Mathlib

/-!
Shallow embedding of the aladdin_bot crawler core
(src/src/helpers/selenium_helper.py, src/src/helpers/helper_functions.py,
src/src/db/redis.py, constants from src/src/lib/const.py), together with
theorems settling the frozen claims about it.

Conventions of the embedding:
* Python exceptions are modelled with `Except String`; a `.error` value is a
  raised exception carrying (a rendering of) the Python message.
* External collaborators that are out of scope for the repository (the
  Selenium page fetcher, the CSS selector tables from `constants/css_selectors.py`,
  the ML classifier `predict_deal`, and the configuration constants
  `PRICE_LIMITS` / `MAX_PRODUCTS_PER_WEBSITE` from `constants/product.py`,
  none of which are present under src/) are modelled as oracle inputs:
  per-card fields, a `limits` table argument and a `maxProducts` argument.
* Machine integers are `Nat` (prices and timestamps in this program are
  non-negative Python ints / floats truncated to ints).
-/

namespace AladdinBot

/-- Websites enum from src/lib/types.py (members named throughout src:
AMAZON, FLIPKART, MYNTRA, AJIO). -/
inductive Websites
  | AMAZON
  | FLIPKART
  | MYNTRA
  | Ajio
deriving DecidableEq, Repr

/-- Affiliate id for Amazon, from src/src/lib/const.py. -/
def AMAZON_AFFILIATE_ID : String := "?tag=aladdinloot3-21"

/-- Affiliate id for Flipkart, from src/src/lib/const.py. -/
def FLIPKART_AFFILIATE_ID : String := "?affid=admitad&affExtParam1=298614"

/-- Affiliate id for Myntra, from src/src/lib/const.py. -/
def MYNTRA_AFFILIATE_ID : String := "?utm_source=admitad&utm_medium=affiliate"

/-- Cache key prefix. The literal value appears in
src/src/helpers/selenium_helper.py line 307 (`PRODUCT_CACHE_KEY = f"product_url_cache"`);
the named constant itself lives in constants/redis_key.py which is not under src. -/
def PRODUCT_URL_CACHE_KEY : String := "product_url_cache"

/-- Hexadecimal value of a character, if any. -/
def hexVal (c : Char) : Option Nat :=
  if c.isDigit then some (c.toNat - 48)
  else if 'a' ≤ c ∧ c ≤ 'f' then some (c.toNat - 87)
  else if 'A' ≤ c ∧ c ≤ 'F' then some (c.toNat - 55)
  else none

/-- Percent-decoding over characters: model of `urllib.parse.unquote` used by
`extract_amazon_product_id`. Valid `%hh` escapes are decoded byte-wise
(consecutive multi-byte UTF-8 escapes are kept as separate characters, which
agrees with CPython on every ASCII escape and never fabricates an ASCII
character from a non-ASCII sequence); a `%` not followed by two hex digits is
kept literally, as in CPython. -/
def unquoteChars : List Char → List Char
  | [] => []
  | '%' :: h1 :: h2 :: rest =>
    match hexVal h1, hexVal h2 with
    | some a, some b => Char.ofNat (16 * a + b) :: unquoteChars rest
    | _, _ => '%' :: unquoteChars (h1 :: h2 :: rest)
  | c :: rest => c :: unquoteChars rest

/-- String-level percent decoding (`urllib.parse.unquote`). -/
def unquote (s : String) : String := ⟨unquoteChars s.data⟩

/-- Character class `[a-zA-Z0-9]` of the Amazon product-id regex. -/
def isAlnumChar (c : Char) : Bool :=
  decide (('a' ≤ c ∧ c ≤ 'z') ∨ ('A' ≤ c ∧ c ≤ 'Z') ∨ ('0' ≤ c ∧ c ≤ '9'))

/-- Attempt to match the regex `/dp/([a-zA-Z0-9]{10})` at the head of the
character list, returning the captured group. -/
def dpIdAt (cs : List Char) : Option (List Char) :=
  match cs with
  | '/' :: 'd' :: 'p' :: '/' :: rest =>
    if 10 ≤ rest.length ∧ (rest.take 10).all isAlnumChar then
      some (rest.take 10)
    else none
  | _ => none

/-- Leftmost match of `/dp/([a-zA-Z0-9]{10})`, as `re.search` finds it. -/
def findDpId : List Char → Option (List Char)
  | [] => none
  | c :: rest =>
    match dpIdAt (c :: rest) with
    | some pid => some pid
    | none => findDpId rest

/-- Model of `extract_amazon_product_id`
(src/src/helpers/selenium_helper.py lines 20-29): percent-decode the url,
search for `/dp/([a-zA-Z0-9]{10})`, return the captured id or `None`. -/
def extract_amazon_product_id (url : String) : Option String :=
  match findDpId (unquote url).data with
  | some pid => some (String.mk pid)
  | none => none

/-- Model of Python `s.replace(pat, "")`: delete all non-overlapping
occurrences of `pat`, scanning left to right. The `fuel` argument makes the
recursion structural; each step consumes at least one character, so
`fuel = cs.length` (as `removeSub` passes) never runs out and the
fuel-exhaustion arm is unreachable. -/
def removeSubFuel (pat : List Char) : Nat → List Char → List Char
  | _, [] => []
  | 0, cs => cs
  | fuel + 1, c :: rest =>
    if pat.length ≠ 0 ∧ pat.isPrefixOf (c :: rest) then
      removeSubFuel pat fuel (List.drop (pat.length - 1) rest)
    else
      c :: removeSubFuel pat fuel rest

/-- Delete all non-overlapping occurrences of `pat`. -/
def removeSub (pat cs : List Char) : List Char := removeSubFuel pat cs.length cs

/-- String wrapper for `removeSub`. -/
def pyDelete (s pat : String) : String := ⟨removeSub pat.data s.data⟩

/-- Numeric value of a digit list, most significant first. -/
def digitsToNat (cs : List Char) : Nat :=
  cs.foldl (fun a c => 10 * a + (c.toNat - 48)) 0

/-- Model of Python `int(float(s))` on the non-negative numerals this program
feeds it: digits with an optional fractional part; the value truncates to the
integer part. Any other shape raises `ValueError` in Python, modelled as
`none`. -/
def parsePyNumber (s : String) : Option Nat :=
  let cs := s.data
  let intPart := cs.takeWhile Char.isDigit
  let rest := cs.dropWhile Char.isDigit
  match rest with
  | [] => if intPart.isEmpty then none else some (digitsToNat intPart)
  | '.' :: frac =>
    if frac.all Char.isDigit ∧ (intPart.isEmpty = false ∨ frac.isEmpty = false) then
      some (digitsToNat intPart)
    else none
  | _ => none

/-- Python `url.split("?")[0]`: the part of the string before the first `?`. -/
def beforeQuestionMark (s : String) : String :=
  ⟨s.data.takeWhile (fun c => c ≠ '?')⟩

/-- Model of `SeleniumHelper.short_url_with_affiliate_code`
(src/src/helpers/selenium_helper.py lines 266-290). A raised `ValueError`
(the `case _` branch) is `.error`; the Amazon branch returns `None` when no
product id is found. -/
def short_url_with_affiliate_code (w : Websites) (url : String) :
    Except String (Option String) :=
  match w with
  | .AMAZON =>
    match extract_amazon_product_id url with
    | some pid =>
      .ok (some ("https://www.amazon.in/dp/" ++ pid ++ "/" ++ AMAZON_AFFILIATE_ID))
    | none => .ok none
  | .FLIPKART =>
    .ok (some ("https://www.flipkart.com" ++ beforeQuestionMark url ++ "/"
      ++ FLIPKART_AFFILIATE_ID))
  | .MYNTRA =>
    .ok (some ("https://www.myntra.com/" ++ url ++ "/" ++ MYNTRA_AFFILIATE_ID))
  | .Ajio => .error "Invalid website specified"

/-- Model of the `product_price` / `product_discount` branch of
`SeleniumHelper.format_extracted_data` (src/src/helpers/selenium_helper.py
lines 227-264). AMAZON and FLIPKART strip `,` then `₹`; MYNTRA strips `Rs.`
then `,`; a site with no `case` (AJIO) falls through and returns `None`.
A Python `ValueError` from `int(float(...))` is `.error`. -/
def format_price (w : Websites) (s : String) : Except String (Option Nat) :=
  match w with
  | .AMAZON | .FLIPKART =>
    match parsePyNumber (pyDelete (pyDelete s ",") "₹") with
    | some n => .ok (some n)
    | none => .error "ValueError: could not convert string to float"
  | .MYNTRA =>
    match parsePyNumber (pyDelete (pyDelete s "Rs.") ",") with
    | some n => .ok (some n)
    | none => .error "ValueError: could not convert string to float"
  | .Ajio => .ok none

/-- Snapshot of the external Redis store backing `RedisDB`
(src/src/db/redis.py). `sets` maps a key to the members of the set stored at
that key; a key that has passively expired via its TTL is simply absent.
`ttls` records the expiries requested through `EXPIRE`, mirroring the
`add_to_set` side call. -/
structure RedisStore where
  sets : List (String × List String)
  ttls : List (String × Nat)
deriving DecidableEq, Repr

/-- Members of the set stored at `k` (Redis `SMEMBERS` on the snapshot):
lookup of the first entry for `k` in the association list (a real store has
one entry per key). -/
def membersOfL : List (String × List String) → String → List String
  | [], _ => []
  | kv :: rest, k => if kv.1 = k then kv.2 else membersOfL rest k

/-- Model of `RedisDB.is_member` on a reachable store
(src/src/db/redis.py lines 88-103): Redis `SISMEMBER`. -/
def sismember (s : RedisStore) (k m : String) : Bool :=
  decide (m ∈ membersOfL s.sets k)

/-- The `is_member` call as made from `is_product_valid`
(src/src/helpers/selenium_helper.py line 309), whose member argument can be
`None` (Amazon rewrite failure): redis-py raises `DataError` on `None`, which
the `redis_call` wrapper converts to `None`, which the caller treats as
falsy, i.e. not a member. -/
def is_member_opt (s : RedisStore) (k : String) (m : Option String) : Bool :=
  match m with
  | some u => sismember s k u
  | none => false

/-- Redis `SADD key m` on the association list: add `m` to the set at `key`,
creating the set when absent. -/
def saddSets (k m : String) : List (String × List String) →
    List (String × List String)
  | [] => [(k, [m])]
  | kv :: rest =>
    if kv.1 = k then
      (kv.1, if m ∈ kv.2 then kv.2 else m :: kv.2) :: rest
    else
      kv :: saddSets k m rest

/-- Model of `RedisDB.add_to_set` (src/src/db/redis.py lines 118-138) for a
single member: `SADD`, then `EXPIRE` when a truthy `expire_time` is given. -/
def add_to_set (s : RedisStore) (k m : String) (expire_time : Option Nat) :
    RedisStore :=
  let s1 : RedisStore := ⟨saddSets k m s.sets, s.ttls⟩
  match expire_time with
  | some t => if t ≠ 0 then ⟨s1.sets, (k, t) :: s1.ttls⟩ else s1
  | none => s1

/-- Model of `RedisDB.is_url_cached` (src/src/db/redis.py lines 167-201):
cursor-scan all keys matching the glob `f"{PRODUCT_URL_CACHE_KEY}*"` (i.e.
keys the cache prefix is a prefix of) and test `SISMEMBER` on each,
returning true on the first hit. The incremental cursor loop enumerates
exactly the matching keys of the snapshot. -/
def is_url_cached (s : RedisStore) (url : String) : Bool :=
  ((s.sets.map Prod.fst).filter
    (fun k => PRODUCT_URL_CACHE_KEY.data.isPrefixOf k.data)).any
    (fun k => sismember s k url)

/-- Outcome of one call to a function wrapped by the `retry` decorator:
the returned value (`none` both when every attempt raised and when the
wrapped function returned `None`... here the operation result is kept
abstract, so `none` means exhaustion), the number of invocations of the
operation, and the backoff waits slept between consecutive attempts. -/
structure RetryResult (α : Type) where
  result : Option α
  calls : Nat
  waits : List Nat
deriving DecidableEq, Repr

/-- The `for retry_count in range(max_retries)` loop of the `retry`
decorator (src/src/helpers/helper_functions.py lines 21-36), with `r`
iterations remaining, so the current `retry_count` is
`max_retries - r`. `op` gives the outcome of the attempt with a given
`retry_count` (the operation may succeed or raise on each call). -/
def retryFrom (op : Nat → Except String α) (max_retries : Nat) :
    Nat → RetryResult α
  | 0 => ⟨none, 0, []⟩
  | r + 1 =>
    let retry_count := max_retries - (r + 1)
    match op retry_count with
    | .ok a => ⟨some a, 1, []⟩
    | .error _ =>
      if retry_count < max_retries - 1 then
        let r2 := retryFrom op max_retries r
        ⟨r2.result, r2.calls + 1, (2 ^ retry_count) :: r2.waits⟩
      else ⟨none, 1, []⟩

/-- Model of the `retry` decorator applied to `op` with `max_retries`
attempts: run the loop from `retry_count = 0` (all `max_retries` iterations
remaining). On exhaustion the wrapper returns `None` instead of raising. -/
def retry (max_retries : Nat) (op : Nat → Except String α) : RetryResult α :=
  retryFrom op max_retries max_retries

/-- One raw listing card as extract_products_by_website sees it, together
with the outcomes of the external collaborators consulted for that card:
`priceEl` / `urlEl` are the text and href of the card's price and url
elements (`none` when the selector finds nothing); `flipkartFetchOk` is
whether the nested `get_flipkart_data` fetch succeeds (it is only consulted
for FLIPKART, and since that fetch goes through the same
`fetch_product_container` whose undefined `self.current_page` access makes
every real call yield `None`, the real program only realizes `false` —
the oracle keeps theorems quantified over all outcomes);
`fieldError` is whether the per-key formatting loop raises
(malformed text under the external selector tables); `fieldsComplete` is
whether every key of `REQUIRED_PRODUCT_KEYS` (external constant) ends up
present; `verdict` is `predict_deal(product_details)["prediction"]` from the
external classifier. -/
structure Card where
  priceEl : Option String
  urlEl : Option String
  flipkartFetchOk : Bool
  fieldError : Bool
  fieldsComplete : Bool
  verdict : String
deriving DecidableEq, Repr

/-- An accepted Product record, identified by its deduplication key: the
affiliate-rewritten url stored into `product_details["product_url"]`
(`none` is possible for a failed Amazon rewrite). The remaining extracted
fields come from the external selector tables and play no role in the
claims. -/
structure ProductR where
  url : Option String
deriving DecidableEq, Repr

/-- Session-local state owned by one `get_products` run: `self.product_urls`
(the session URL set, line 74/170 of src/src/helpers/selenium_helper.py) and
the accumulated accepted products. -/
structure SessState where
  productUrls : List (Option String)
  products : List ProductR
deriving DecidableEq, Repr

/-- Model of `SeleniumHelper.is_product_valid`
(src/src/helpers/selenium_helper.py lines 292-314), for a card whose price
element text is `priceEl` and url element href is `urlEl`, against the
session URL set `urls` and the `limits` table (`PRICE_LIMITS`, an external
constant). Mirrors the source order: missing elements reject; the price is
formatted (may raise), then the url (may raise for AJIO); a url already in
the session set rejects; comparing a `None` price raises `TypeError`;
then `price <= PRICE_LIMITS[category]` gates the Redis membership lookup on
the key `"product_url_cache"`. -/
def is_product_valid (w : Websites) (cat : String) (limits : String → Nat)
    (store : RedisStore) (urls : List (Option String))
    (priceEl urlEl : Option String) : Except String Bool :=
  match priceEl, urlEl with
  | some priceText, some href =>
    match format_price w priceText with
    | .error e => .error e
    | .ok priceOpt =>
      match short_url_with_affiliate_code w href with
      | .error e => .error e
      | .ok urlOpt =>
        if urlOpt ∈ urls then .ok false
        else
          match priceOpt with
          | none =>
            .error "TypeError: comparison not supported between NoneType and int"
          | some p =>
            if p ≤ limits cat then
              if is_member_opt store PRODUCT_URL_CACHE_KEY urlOpt then .ok false
              else .ok true
            else .ok false
  | _, _ => .ok false

/-- Processing of one card inside the `for product_soup in product_cards`
loop of `extract_products_by_website` (src/src/helpers/selenium_helper.py
lines 117-173): gate through `is_product_valid`; then `get_flipkart_data`,
which returns `None` (so the card is skipped by `continue`) whenever the
site is not FLIPKART or the nested fetch fails; then the field-formatting
loop (which may raise); then the `REQUIRED_PRODUCT_KEYS` completeness check;
then the classifier verdict, accepting exactly on `"Best Deal"`, recomputing
the affiliate url and appending it to the session URL set. -/
def processCard (w : Websites) (cat : String) (limits : String → Nat)
    (store : RedisStore) (st : SessState) (c : Card) :
    Except String SessState :=
  match is_product_valid w cat limits store st.productUrls c.priceEl c.urlEl with
  | .error e => .error e
  | .ok false => .ok st
  | .ok true =>
    if w = Websites.FLIPKART ∧ c.flipkartFetchOk then
      if c.fieldError then .error "ValueError: invalid field text"
      else if c.fieldsComplete then
        if c.verdict = "Best Deal" then
          match c.urlEl with
          | some href =>
            match short_url_with_affiliate_code w href with
            | .error e => .error e
            | .ok urlOpt =>
              .ok ⟨st.productUrls ++ [urlOpt], st.products ++ [⟨urlOpt⟩]⟩
          | none => .ok st
        else .ok st
      else .ok st
    else .ok st

/-- Model of `SeleniumHelper.extract_products_by_website`
(src/src/helpers/selenium_helper.py lines 100-175): fold `processCard` over
the page's cards. The source returns the page-local product list which the
caller `extend`s into the session list; the model threads the session state
directly, which is observationally the same accumulation. -/
def extract_products_by_website (w : Websites) (cat : String)
    (limits : String → Nat) (store : RedisStore) :
    List Card → SessState → Except String SessState
  | [], st => .ok st
  | c :: cs, st =>
    match processCard w cat limits store st c with
    | .error e => .error e
    | .ok st' => extract_products_by_website w cat limits store cs st'

/-- Model of `SeleniumHelper.has_next_page`
(src/src/helpers/selenium_helper.py lines 325-329): the method is defined
without `self`, so the call `self.has_next_page()` in `get_products`
unconditionally raises `TypeError` before the stub body could run. -/
def has_next_page : Except String Bool :=
  .error "has_next_page() takes 0 positional arguments but 1 was given"

/-- The wrapping applied by the `except` clause of `get_products`
(src/src/helpers/selenium_helper.py lines 94-96): the caught exception is
re-raised with this message. -/
def wrapGetProductsError (e : String) : String :=
  "Error occurred while getting products: " ++ e

/-- The `while` loop of `SeleniumHelper.get_products`
(src/src/helpers/selenium_helper.py lines 77-96). `pages` is the stream of
outcomes of the external fetch: `fetch_product_container` is wrapped in
`@retry(3)`, so on persistent failure it yields `None` (and in fact the
source's reference to the undefined attribute `self.current_page` — the
constructor only defines `page_conter` — makes every real call raise
`AttributeError` and hence yield `None`; the oracle keeps the loop statable
for arbitrary fetch outcomes, of which always-`None` is the one the bug
forces). The guard is the source's `len(products) >= MAX_PRODUCTS_PER_WEBSITE`;
a `None` container breaks; an exception during extraction or from
`has_next_page` is caught and re-raised wrapped. -/
def get_products_loop (maxProducts : Nat) (w : Websites) (cat : String)
    (limits : String → Nat) (store : RedisStore) :
    List (Option (List Card)) → SessState → Except String (List ProductR)
  | pages, st =>
    if st.products.length ≥ maxProducts then
      match pages with
      | [] => .ok st.products
      | none :: _ => .ok st.products
      | some cards :: rest =>
        match extract_products_by_website w cat limits store cards st with
        | .error e => .error (wrapGetProductsError e)
        | .ok st' =>
          match has_next_page with
          | .error e => .error (wrapGetProductsError e)
          | .ok b =>
            if b then get_products_loop maxProducts w cat limits store rest st'
            else .ok st'.products
    else .ok st.products

/-- Model of `SeleniumHelper.get_products`
(src/src/helpers/selenium_helper.py lines 61-98): reset the session state
(`page_conter = 1`, `product_urls = []`, `products = []`) and run the loop.
`maxProducts` is the external constant `MAX_PRODUCTS_PER_WEBSITE`
(constants/product.py, not under src). -/
def get_products (maxProducts : Nat) (w : Websites) (cat : String)
    (limits : String → Nat) (store : RedisStore)
    (pages : List (Option (List Card))) : Except String (List ProductR) :=
  get_products_loop maxProducts w cat limits store pages ⟨[], []⟩

/-- Lowercased English day names as produced by `strftime("%A").lower()`,
indexed so that index 0 is the weekday of the Unix epoch (a Thursday). -/
def dayName : Nat → String
  | 0 => "thursday"
  | 1 => "friday"
  | 2 => "saturday"
  | 3 => "sunday"
  | 4 => "monday"
  | 5 => "tuesday"
  | _ => "wednesday"

/-- Weekday discriminator of a POSIX timestamp (seconds). -/
def weekdayOf (ts : Nat) : String := dayName ((ts / 86400) % 7)

/-- Model of `HelperFunctions.generate_product_url_cache_key`
(src/src/helpers/helper_functions.py lines 221-233):
`f"{PRODUCT_URL_CACHE_KEY}_{time_stamp}_{week_day}"` where `time_stamp` is
the full-precision `datetime.timestamp(now)` (modelled as whole seconds; the
real value has sub-second precision, which only makes keys differ more
often) and `week_day` is `strftime("%A").lower()`. -/
def generate_product_url_cache_key (ts : Nat) : String :=
  PRODUCT_URL_CACHE_KEY ++ "_" ++ toString ts ++ "_" ++ weekdayOf ts

/-- An empty snapshot of the Redis store. -/
def emptyStore : RedisStore := ⟨[], []⟩

/-- A price-ceiling table assigning every category the ceiling 2500 used by
the spec's end-to-end example. -/
def limits2500 : String → Nat := fun _ => 2500

/-- A Flipkart card that passes every gate: parseable price below the
ceiling, a fresh href, successful nested fetch, complete fields and a
"Best Deal" verdict. -/
def flipCard : Card :=
  ⟨some "1,499", some "/shirt/p/itm123", true, false, true, "Best Deal"⟩

/-- The affiliate rewrite of `flipCard`'s href. -/
def flipCardUrl : String :=
  "https://www.flipkart.com/shirt/p/itm123/?affid=admitad&affExtParam1=298614"

/-- An Amazon card that passes the price ceiling and both dedup checks and
whose classifier verdict is "Best Deal". -/
def amzCard : Card :=
  ⟨some "1,499", some "/dp/B000000000?x=1", true, false, true, "Best Deal"⟩

/-- The session-local uniqueness invariant of `get_products` state: every
accepted product's URL has been recorded in the session URL set
`self.product_urls`, and the accepted products carry pairwise-distinct
URLs. -/
def sessInv (st : SessState) : Prop :=
  (∀ p ∈ st.products, p.url ∈ st.productUrls)
  ∧ (st.products.map ProductR.url).Nodup

/-- Claim C1 of CLAIMS.json concerns `get_products` with a positive
`MAX_PRODUCTS_PER_WEBSITE`; this theorem evaluates the code there: because
the source's loop guard is `while len(products) >= MAX_PRODUCTS_PER_WEBSITE`
(src/src/helpers/selenium_helper.py line 77) — `>=` where the stated
behaviour needs `<` — the body never runs when the cap is positive, so
`get_products` returns the empty list immediately for every fetch stream,
never fetching a page, never accumulating a product, and with no page
ceiling ever consulted (none exists in the code). -/
theorem c1_loop_guard_inverted (maxProducts : Nat) (hpos : 0 < maxProducts)
    (w : Websites) (cat : String) (limits : String → Nat) (store : RedisStore)
    (pages : List (Option (List Card))) :
    get_products maxProducts w cat limits store pages = .ok [] := by
  unfold get_products get_products_loop
  have h : ¬ ((SessState.mk [] []).products.length ≥ maxProducts) := by
    simp only [List.length_nil]
    omega
  rw [if_neg h]

/-- Witness for C1: with the cap 5 and a page holding a fully qualifying
card available, the session still returns no products. -/
theorem c1_witness :
    0 < 5 ∧
      get_products 5 Websites.FLIPKART "t-shirt" limits2500 emptyStore
        [some [flipCard]] = .ok [] :=
  ⟨by decide,
    c1_loop_guard_inverted 5 (by decide) Websites.FLIPKART "t-shirt"
      limits2500 emptyStore [some [flipCard]]⟩

/-- Claim C3: the `retry` wrapper with `max_retries = 3` invokes an
always-raising operation exactly 3 times, sleeping `2^(attempt-1)` seconds
(1 then 2) between consecutive attempts, and returns a failure value
(`None`) instead of raising; an operation first succeeding on attempt
`j + 1 ≤ 3` is invoked exactly `j + 1` times and its result is returned. -/
theorem c3_retry_contract {α : Type} (op : Nat → Except String α) :
    ((∀ i, i < 3 → ∃ e, op i = .error e) →
      retry 3 op = ⟨none, 3, [1, 2]⟩)
    ∧ (∀ j v, j < 3 → (∀ i, i < j → ∃ e, op i = .error e) → op j = .ok v →
        (retry 3 op).result = some v ∧ (retry 3 op).calls = j + 1) := by
  constructor
  · intro h
    obtain ⟨e0, h0⟩ := h 0 (by omega)
    obtain ⟨e1, h1⟩ := h 1 (by omega)
    obtain ⟨e2, h2⟩ := h 2 (by omega)
    simp [retry, retryFrom, h0, h1, h2]
  · intro j v hj hprev hok
    interval_cases j
    · simp [retry, retryFrom, hok]
    · obtain ⟨e0, h0⟩ := hprev 0 (by omega)
      simp [retry, retryFrom, h0, hok]
    · obtain ⟨e0, h0⟩ := hprev 0 (by omega)
      obtain ⟨e1, h1⟩ := hprev 1 (by omega)
      simp [retry, retryFrom, h0, h1, hok]

/-- Witness for C3: an always-failing operation is called 3 times with waits
1 and 2 and yields `None`; an operation succeeding on its second call is
called exactly twice and its value is returned. -/
theorem c3_witness :
    retry 3 (fun _ => (.error "boom" : Except String Nat)) = ⟨none, 3, [1, 2]⟩
    ∧ (retry 3 (fun i =>
        if i = 1 then (.ok 42 : Except String Nat) else .error "x")).result
        = some 42
    ∧ (retry 3 (fun i =>
        if i = 1 then (.ok 42 : Except String Nat) else .error "x")).calls
        = 2 := by
  have h2 := (c3_retry_contract (fun i =>
      if i = 1 then (.ok 42 : Except String Nat) else .error "x")).2 1 42
    (by omega) (by intro i hi; interval_cases i; exact ⟨"x", rfl⟩) rfl
  exact ⟨(c3_retry_contract _).1 (fun i _ => ⟨"boom", rfl⟩), h2.1, h2.2⟩

/-- Counterexample to claim C7: AJIO is in the site enum, yet its affiliate
rewrite does not return a rewritten URL — the `match` in
`short_url_with_affiliate_code` has no AJIO arm, so the `case _` branch
raises `ValueError("Invalid website specified")`. -/
theorem c7_counterexample :
    short_url_with_affiliate_code Websites.Ajio "https://www.ajio.com/p/469"
      = .error "Invalid website specified" := rfl

/-- Amended C7: exactly the three sites AMAZON, FLIPKART and MYNTRA have an
affiliate-rewrite rule (FLIPKART and MYNTRA always producing a tagged URL,
AMAZON producing one exactly when a product id is found and `None`
otherwise), while AJIO — though a member of the enum — fails the rewrite
with `ValueError` like any unrecognized site. -/
theorem c7_affiliate_rewrite_per_site (url : String) :
    short_url_with_affiliate_code Websites.FLIPKART url =
      .ok (some ("https://www.flipkart.com" ++ beforeQuestionMark url ++ "/"
        ++ FLIPKART_AFFILIATE_ID))
    ∧ short_url_with_affiliate_code Websites.MYNTRA url =
      .ok (some ("https://www.myntra.com/" ++ url ++ "/" ++ MYNTRA_AFFILIATE_ID))
    ∧ short_url_with_affiliate_code Websites.AMAZON url =
      .ok ((extract_amazon_product_id url).map
        (fun pid => "https://www.amazon.in/dp/" ++ pid ++ "/" ++ AMAZON_AFFILIATE_ID))
    ∧ short_url_with_affiliate_code Websites.Ajio url =
      .error "Invalid website specified" := by
  refine ⟨rfl, rfl, ?_, rfl⟩
  cases h : extract_amazon_product_id url <;>
    simp [short_url_with_affiliate_code, h]

/-- Counterexample to claim C8: the window key is not a function of the
coarse period only — two invocations 60 seconds apart on the same weekday
(same day, both at epoch Thursday) yield different keys, because the key
embeds the full-precision timestamp. -/
theorem c8_counterexample :
    weekdayOf 0 = weekdayOf 60 ∧
      generate_product_url_cache_key 0 ≠ generate_product_url_cache_key 60 :=
  ⟨rfl, by decide⟩

/-- Amended C8: `generate_product_url_cache_key` is deterministic in the
exact wall-clock timestamp, not in the coarse period: within one weekday,
two invocations agree on the window key exactly when their timestamps
render identically, so the key is unique per instant (as the source
docstring says: "Generate a unique cache key"), and concurrent crawlers
invoking it at different instants do not agree. -/
theorem c8_key_embeds_exact_timestamp (t1 t2 : Nat)
    (h : weekdayOf t1 = weekdayOf t2) :
    generate_product_url_cache_key t1 = generate_product_url_cache_key t2 ↔
      toString t1 = toString t2 := by
  constructor
  · intro hk
    unfold generate_product_url_cache_key at hk
    rw [h] at hk
    have hd := congrArg String.data hk
    simp only [String.data_append, List.append_assoc] at hd
    have hd2 := List.append_cancel_left hd
    have hd3 := List.append_cancel_left hd2
    have hd4 := List.append_cancel_right hd3
    exact String.ext hd4
  · intro hts
    unfold generate_product_url_cache_key
    rw [hts, h]

/-- Witness for C8 (amended): instantiated at the two instants of the
counterexample, whose weekdays coincide. -/
theorem c8_witness :
    generate_product_url_cache_key 0 = generate_product_url_cache_key 60 ↔
      toString (0 : Nat) = toString (60 : Nat) :=
  c8_key_embeds_exact_timestamp 0 60 rfl

/-- After `SADD k m`, the key `k` is in the store's keyspace. -/
theorem mem_keys_saddSets (k m : String) (l : List (String × List String)) :
    k ∈ (saddSets k m l).map Prod.fst := by
  induction l with
  | nil => simp [saddSets]
  | cons kv rest ih =>
    by_cases h : kv.1 = k
    · simp [saddSets, h]
    · simp only [saddSets, if_neg h, List.map_cons, List.mem_cons]
      exact Or.inr ih

/-- After `SADD k m`, the member `m` is in the set stored at `k`. -/
theorem mem_membersOfL_saddSets (k m : String)
    (l : List (String × List String)) :
    m ∈ membersOfL (saddSets k m l) k := by
  induction l with
  | nil => simp [saddSets, membersOfL]
  | cons kv rest ih =>
    by_cases h : kv.1 = k
    · simp only [saddSets, if_pos h, membersOfL, if_pos h]
      by_cases hm : m ∈ kv.2 <;> simp [hm]
    · simpa only [saddSets, if_neg h, membersOfL] using ih

/-- `add_to_set` updates the key-to-set map by `SADD`, whatever the
expiry argument. -/
theorem sets_add_to_set (s : RedisStore) (k m : String) (ttl : Option Nat) :
    (add_to_set s k m ttl).sets = saddSets k m s.sets := by
  cases ttl with
  | none => rfl
  | some t =>
    by_cases h : t ≠ 0 <;> simp [add_to_set, h]

/-- Claim C4: registering a URL into any live rotation-window set whose key
carries the cache's key prefix makes `is_url_cached` find it; and a URL that
is a member of no live set matching the prefix pattern is reported as not
cached. -/
theorem c4_register_then_exists :
    (∀ (s : RedisStore) (k u : String) (ttl : Option Nat),
      PRODUCT_URL_CACHE_KEY.data.isPrefixOf k.data = true →
      is_url_cached (add_to_set s k u ttl) u = true)
    ∧ (∀ (s : RedisStore) (u : String),
      (∀ k, k ∈ s.sets.map Prod.fst →
        PRODUCT_URL_CACHE_KEY.data.isPrefixOf k.data = true →
        sismember s k u = false) →
      is_url_cached s u = false) := by
  constructor
  · intro s k u ttl hpre
    unfold is_url_cached
    rw [List.any_eq_true]
    refine ⟨k, List.mem_filter.mpr ⟨?_, hpre⟩, ?_⟩
    · rw [sets_add_to_set]
      exact mem_keys_saddSets k u s.sets
    · unfold sismember
      rw [sets_add_to_set]
      exact decide_eq_true (mem_membersOfL_saddSets k u s.sets)
  · intro s u h
    unfold is_url_cached
    rw [List.any_eq_false]
    intro k hk
    have hm := List.mem_filter.mp hk
    simp [h k hm.1 hm.2]

/-- Witness for C4: registering a URL into a fresh window set (with a 3-day
TTL) makes it discoverable, and an unregistered URL is not cached. -/
theorem c4_witness :
    PRODUCT_URL_CACHE_KEY.data.isPrefixOf "product_url_cache_99_monday".data
      = true
    ∧ is_url_cached (add_to_set emptyStore "product_url_cache_99_monday"
        "https://www.flipkart.com/a/p/b" (some 259200))
        "https://www.flipkart.com/a/p/b" = true
    ∧ is_url_cached emptyStore "https://www.flipkart.com/a/p/b" = false :=
  ⟨by decide,
    c4_register_then_exists.1 emptyStore "product_url_cache_99_monday"
      "https://www.flipkart.com/a/p/b" (some 259200) (by decide),
    c4_register_then_exists.2 emptyStore "https://www.flipkart.com/a/p/b"
      (by intro k hk; simp [emptyStore] at hk)⟩

/-- Claim C5: on a card whose price text parses to `p` and whose href
rewrites to a fresh, uncached URL, `is_product_valid` answers exactly
`p ≤ PRICE_LIMITS[category]` — so the gate rejects precisely when the price
strictly exceeds the per-category ceiling, and a price equal to the ceiling
passes. -/
theorem c5_price_ceiling_boundary (w : Websites) (cat : String)
    (limits : String → Nat) (store : RedisStore) (urls : List (Option String))
    (priceText href : String) (p : Nat) (u : Option String)
    (hp : format_price w priceText = .ok (some p))
    (hu : short_url_with_affiliate_code w href = .ok u)
    (hfresh : u ∉ urls)
    (hnc : is_member_opt store PRODUCT_URL_CACHE_KEY u = false) :
    is_product_valid w cat limits store urls (some priceText) (some href) =
      .ok (decide (p ≤ limits cat)) := by
  simp only [is_product_valid, hp, hu]
  rw [if_neg hfresh]
  by_cases hle : p ≤ limits cat
  · simp [hle, hnc]
  · simp [hle]

/-- Witness for C5: with the spec example ceiling 2500, a price of exactly
2500 passes the gate and a price of 2501 is rejected. -/
theorem c5_witness :
    format_price Websites.FLIPKART "2,500" = .ok (some 2500)
    ∧ is_product_valid Websites.FLIPKART "t-shirt" limits2500 emptyStore []
        (some "2,500") (some "/a/p/b") = .ok true
    ∧ is_product_valid Websites.FLIPKART "t-shirt" limits2500 emptyStore []
        (some "2,501") (some "/a/p/b") = .ok false := by
  refine ⟨rfl, ?_, ?_⟩
  · have h := c5_price_ceiling_boundary Websites.FLIPKART "t-shirt" limits2500
      emptyStore [] "2,500" "/a/p/b" 2500 _ rfl rfl (by simp) rfl
    simpa [limits2500] using h
  · have h := c5_price_ceiling_boundary Websites.FLIPKART "t-shirt" limits2500
      emptyStore [] "2,501" "/a/p/b" 2501 _ rfl rfl (by simp) rfl
    simpa [limits2500] using h

/-- Claim C10: for site AMAZON, whenever the percent-decoded href has no
occurrence of `/dp/` followed by 10 alphanumeric characters (the product-id
regex finds no match), `extract_amazon_product_id` yields `None` and the
affiliate rewrite returns normally (no exception) with `None` instead of a
URL string — so the product's dedup identity key can be `None`. -/
theorem c10_amazon_rewrite_yields_none (href : String)
    (h : findDpId (unquote href).data = none) :
    extract_amazon_product_id href = none ∧
      short_url_with_affiliate_code Websites.AMAZON href = .ok none := by
  have hx : extract_amazon_product_id href = none := by
    unfold extract_amazon_product_id
    rw [h]
  exact ⟨hx, by simp [short_url_with_affiliate_code, hx]⟩

/-- Witness for C10: a search-results href with no `/dp/` segment. -/
theorem c10_witness :
    findDpId (unquote "https://www.amazon.in/s?k=shirt").data = none ∧
      short_url_with_affiliate_code Websites.AMAZON
        "https://www.amazon.in/s?k=shirt" = .ok none :=
  ⟨rfl, (c10_amazon_rewrite_yields_none "https://www.amazon.in/s?k=shirt" rfl).2⟩

/-- A card that `is_product_valid` accepts rewrites to a URL the session set
does not yet contain (the session-local dedup check is part of validity). -/
theorem valid_true_url_fresh (w : Websites) (cat : String)
    (limits : String → Nat) (store : RedisStore) (urls : List (Option String))
    (pt href : String) (u : Option String)
    (hv : is_product_valid w cat limits store urls (some pt) (some href)
      = .ok true)
    (hu : short_url_with_affiliate_code w href = .ok u) :
    u ∉ urls := by
  simp only [is_product_valid, hu] at hv
  cases hfp : format_price w pt with
  | error e => rw [hfp] at hv; simp at hv
  | ok popt =>
    rw [hfp] at hv
    by_cases hmem : u ∈ urls
    · simp [hmem] at hv
    · exact hmem

/-- Processing one card preserves the session uniqueness invariant. -/
theorem processCard_preserves_sessInv (w : Websites) (cat : String)
    (limits : String → Nat) (store : RedisStore) (st : SessState) (c : Card)
    (st' : SessState) (hinv : sessInv st)
    (h : processCard w cat limits store st c = .ok st') :
    sessInv st' := by
  unfold processCard at h
  cases hv : is_product_valid w cat limits store st.productUrls c.priceEl
      c.urlEl with
  | error e => rw [hv] at h; simp at h
  | ok b =>
    rw [hv] at h
    cases b with
    | false =>
      obtain rfl : st = st' := Except.ok.inj h
      exact hinv
    | true =>
      by_cases hfl : w = Websites.FLIPKART ∧ c.flipkartFetchOk = true
      · rw [if_pos hfl] at h
        cases hfe : c.fieldError with
        | true => rw [hfe] at h; simp at h
        | false =>
          rw [hfe] at h
          simp only [Bool.false_eq_true, if_false] at h
          cases hfc : c.fieldsComplete with
          | false =>
            rw [hfc] at h
            simp only [Bool.false_eq_true, if_false] at h
            obtain rfl : st = st' := Except.ok.inj h
            exact hinv
          | true =>
            rw [hfc] at h
            simp only [if_true] at h
            by_cases hbd : c.verdict = "Best Deal"
            · rw [if_pos hbd] at h
              cases hurl : c.urlEl with
              | none =>
                rw [hurl] at h
                obtain rfl : st = st' := Except.ok.inj h
                exact hinv
              | some href =>
                simp only [hurl] at h
                cases hsu : short_url_with_affiliate_code w href with
                | error e => rw [hsu] at h; simp at h
                | ok u =>
                  rw [hsu] at h
                  obtain rfl : SessState.mk (st.productUrls ++ [u])
                      (st.products ++ [⟨u⟩]) = st' := Except.ok.inj h
                  obtain ⟨pt, hpe⟩ : ∃ pt, c.priceEl = some pt := by
                    cases hpe : c.priceEl with
                    | none =>
                      rw [hpe, hurl] at hv
                      simp [is_product_valid] at hv
                    | some pt => exact ⟨pt, rfl⟩
                  rw [hpe, hurl] at hv
                  have hfresh : u ∉ st.productUrls :=
                    valid_true_url_fresh w cat limits store st.productUrls
                      pt href u hv hsu
                  constructor
                  · intro p hp
                    rcases List.mem_append.mp hp with hp1 | hp2
                    · exact List.mem_append_left _ (hinv.1 p hp1)
                    · rw [List.mem_singleton] at hp2
                      subst hp2
                      simp
                  · rw [List.map_append, List.nodup_append]
                    refine ⟨hinv.2, List.nodup_singleton _, ?_⟩
                    intro x hx1 hx2
                    rw [List.map_singleton, List.mem_singleton] at hx2
                    subst hx2
                    obtain ⟨p, hp, hpu⟩ := List.mem_map.mp hx1
                    exact hfresh (hpu ▸ hinv.1 p hp)
            · rw [if_neg hbd] at h
              obtain rfl : st = st' := Except.ok.inj h
              exact hinv
      · rw [if_neg hfl] at h
        obtain rfl : st = st' := Except.ok.inj h
        exact hinv

/-- Folding a page of cards preserves the session uniqueness invariant. -/
theorem extract_preserves_sessInv (w : Websites) (cat : String)
    (limits : String → Nat) (store : RedisStore) :
    ∀ (cards : List Card) (st st' : SessState), sessInv st →
      extract_products_by_website w cat limits store cards st = .ok st' →
      sessInv st' := by
  intro cards
  induction cards with
  | nil =>
    intro st st' hinv h
    obtain rfl : st = st' := Except.ok.inj h
    exact hinv
  | cons c cs ih =>
    intro st st' hinv h
    unfold extract_products_by_website at h
    cases hpc : processCard w cat limits store st c with
    | error e => rw [hpc] at h; simp at h
    | ok st1 =>
      rw [hpc] at h
      exact ih st1 st'
        (processCard_preserves_sessInv w cat limits store st c st1 hinv hpc) h

/-- Claim C9: within one session the accepted-product list always carries
pairwise-distinct URLs — every accepted card's URL is recorded in the
session-local URL set, and a card whose rewritten URL is already in that set
is rejected with the state unchanged, so the same URL is never accepted
twice even from duplicate cards on one page. -/
theorem c9_session_urls_distinct (w : Websites) (cat : String)
    (limits : String → Nat) (store : RedisStore) :
    (∀ (cards : List Card) (st st' : SessState), sessInv st →
      extract_products_by_website w cat limits store cards st = .ok st' →
      sessInv st')
    ∧ (∀ (st : SessState) (c : Card) (pt href : String) (popt : Option Nat)
        (u : Option String),
        c.priceEl = some pt → c.urlEl = some href →
        format_price w pt = .ok popt →
        short_url_with_affiliate_code w href = .ok u →
        u ∈ st.productUrls →
        processCard w cat limits store st c = .ok st) := by
  constructor
  · exact extract_preserves_sessInv w cat limits store
  · intro st c pt href popt u hpe hurl hfp hsu hmem
    have hv : is_product_valid w cat limits store st.productUrls (some pt)
        (some href) = .ok false := by
      simp only [is_product_valid, hfp, hsu]
      rw [if_pos hmem]
    unfold processCard
    rw [hpe, hurl, hv]

/-- Witness for C9: a page carrying the same qualifying card twice yields a
single accepted product whose URL sits in the session set, satisfying the
invariant. -/
theorem c9_witness :
    extract_products_by_website Websites.FLIPKART "t-shirt" limits2500
      emptyStore [flipCard, flipCard] ⟨[], []⟩ =
      .ok ⟨[some flipCardUrl], [⟨some flipCardUrl⟩]⟩
    ∧ sessInv ⟨[some flipCardUrl], [⟨some flipCardUrl⟩]⟩ :=
  ⟨rfl,
    (c9_session_urls_distinct Websites.FLIPKART "t-shirt" limits2500
      emptyStore).1 [flipCard, flipCard] ⟨[], []⟩
      ⟨[some flipCardUrl], [⟨some flipCardUrl⟩]⟩
      ⟨fun p hp => absurd hp (List.not_mem_nil p), List.nodup_nil⟩ rfl⟩

/-- For any site other than FLIPKART, processing a card never changes the
session state when it returns at all: `get_flipkart_data` yields `None`
(its site guard fails) and the caller's `continue` skips the card before
the classifier or the accept step can run. -/
theorem processCard_non_flipkart (w : Websites) (hw : w ≠ Websites.FLIPKART)
    (cat : String) (limits : String → Nat) (store : RedisStore)
    (st st' : SessState) (c : Card)
    (h : processCard w cat limits store st c = .ok st') : st' = st := by
  unfold processCard at h
  cases hv : is_product_valid w cat limits store st.productUrls c.priceEl
      c.urlEl with
  | error e => rw [hv] at h; simp at h
  | ok b =>
    rw [hv] at h
    cases b with
    | false => exact (Except.ok.inj h).symm
    | true =>
      rw [if_neg (fun hc => hw hc.1)] at h
      exact (Except.ok.inj h).symm

/-- Claim C6 is contradicted by the code: for site AMAZON the extraction
loop accepts no card whatsoever — even one that passes the price ceiling,
both dedup checks and whose classifier verdict is "Best Deal" — because
`get_flipkart_data` returns `None` for every non-FLIPKART site and the
caller `continue`s on `None`, so the classifier acceptance step is
unreachable and the session state is returned unchanged. -/
theorem c6_non_flipkart_cards_never_accepted (cat : String)
    (limits : String → Nat) (store : RedisStore) :
    ∀ (cards : List Card) (st st' : SessState),
      extract_products_by_website Websites.AMAZON cat limits store cards st
        = .ok st' →
      st' = st := by
  intro cards
  induction cards with
  | nil =>
    intro st st' h
    exact (Except.ok.inj h).symm
  | cons c cs ih =>
    intro st st' h
    unfold extract_products_by_website at h
    cases hpc : processCard Websites.AMAZON cat limits store st c with
    | error e => rw [hpc] at h; simp at h
    | ok st1 =>
      rw [hpc] at h
      have h1 : st1 = st :=
        processCard_non_flipkart Websites.AMAZON (by decide) cat limits store
          st st1 c hpc
      rw [ih st1 st' h, h1]

/-- Witness for C6: an Amazon card that passes `is_product_valid` (price
1499 under the 2500 ceiling, fresh uncached URL) with a "Best Deal"
verdict is still not accepted — the extraction returns the state
unchanged, with no product accumulated. -/
theorem c6_witness :
    is_product_valid Websites.AMAZON "t-shirt" limits2500 emptyStore []
      amzCard.priceEl amzCard.urlEl = .ok true
    ∧ amzCard.verdict = "Best Deal"
    ∧ extract_products_by_website Websites.AMAZON "t-shirt" limits2500
        emptyStore [amzCard] ⟨[], []⟩ = .ok ⟨[], []⟩
    ∧ (⟨[], []⟩ : SessState) = ⟨[], []⟩ :=
  ⟨rfl, rfl, rfl,
    c6_non_flipkart_cards_never_accepted "t-shirt" limits2500 emptyStore
      [amzCard] ⟨[], []⟩ ⟨[], []⟩ rfl⟩

/-- Claim C2 concerns error containment with partial results; this theorem
evaluates the code on the only fetch outcomes it can actually produce.
Every call to `fetch_product_container` reads the undefined attribute
`self.current_page` (src/src/helpers/selenium_helper.py line 209; the
constructor defines only `page_conter`), so each of the 3 attempts under
`@retry(3)` raises `AttributeError` and the wrapper yields `None` — the
first conjunct evaluates that retry outcome. Consequently every page the
loop sees is `None`, and the second conjunct shows that under such a fetch
stream `get_products` returns the bare empty list for every cap, site,
category, ceiling table and store: the session never accepts a product,
never raises, and never returns any products-plus-failure-status value —
the containment-and-partial-results behaviour the claim describes is
unimplemented. -/
theorem c2_session_never_returns_partial_results :
    retry 3 (fun _ =>
      (.error "AttributeError: SeleniumHelper object has no attribute current_page"
        : Except String (List Card))) = ⟨none, 3, [1, 2]⟩
    ∧ ∀ (maxProducts : Nat) (w : Websites) (cat : String)
        (limits : String → Nat) (store : RedisStore)
        (pages : List (Option (List Card))),
        (∀ p ∈ pages, p = none) →
        get_products maxProducts w cat limits store pages = .ok [] := by
  refine ⟨rfl, ?_⟩
  intro maxProducts w cat limits store pages hnone
  unfold get_products get_products_loop
  by_cases h : (SessState.mk [] []).products.length ≥ maxProducts
  · rw [if_pos h]
    cases pages with
    | nil => rfl
    | cons p rest =>
      have hp := hnone p (List.mem_cons_self p rest)
      subst hp
      rfl
  · rw [if_neg h]

/-- Witness for C2: with the fetch yielding `None` (as the broken attribute
access forces), sessions with cap 0 and with cap 5 both return the bare
empty list — no error, no partial products, no status. -/
theorem c2_witness :
    get_products 0 Websites.FLIPKART "t-shirt" limits2500 emptyStore
      [none, none] = .ok []
    ∧ get_products 5 Websites.FLIPKART "t-shirt" limits2500 emptyStore
      [none] = .ok [] :=
  ⟨c2_session_never_returns_partial_results.2 0 Websites.FLIPKART "t-shirt"
      limits2500 emptyStore [none, none] (by decide),
    c2_session_never_returns_partial_results.2 5 Websites.FLIPKART "t-shirt"
      limits2500 emptyStore [none] (by decide)⟩

end AladdinBot
